import Mathlib

/-!
Verification development for the request-orchestration and resilience layer of
the Aceleraí creative-audit tool.  Two implementations are embedded:

* `analyzeCreative` — the SPA service (`src/services/geminiService.ts`);
* `POST` / `attemptGeneration` — the Next.js API route
  (`src/next-app/context/AnalysisContext.tsx`, route-handler section).

The external model provider is abstracted as an oracle `Nat → Outcome`
assigning to each successive invocation either a raw response body or a
thrown provider error.  JavaScript string truthiness, `String.includes`,
`String.split`, `JSON.parse` and the zod input schema are given executable
models below.
-/

namespace Acelerai

/-- JavaScript truthiness of an optional string: `undefined` and `""` are
falsy, every other string is truthy. -/
def truthyStr : Option String → Bool
  | none => false
  | some s => !(s == "")

/-- `pat` is an initial segment of `s` (character lists). -/
def startsWithPat : List Char → List Char → Bool
  | [], _ => true
  | _ :: _, [] => false
  | p :: ps, c :: cs => c == p && startsWithPat ps cs

/-- `pat` occurs as a contiguous run inside `s` (character lists). -/
def containsSub (s pat : List Char) : Bool :=
  match s with
  | [] => pat.isEmpty
  | c :: rest => startsWithPat pat (c :: rest) || containsSub rest pat

/-- Model of JavaScript `String.prototype.includes`. -/
def strContains (s pat : String) : Bool :=
  containsSub s.data pat.data

/-- The characters before the first comma, and — when a comma occurs — the
characters after it. -/
def takeUntilComma : List Char → List Char × Option (List Char)
  | [] => ([], none)
  | c :: cs =>
    if c = ',' then ([], some cs)
    else
      let r := takeUntilComma cs
      (c :: r.1, r.2)

/-- Model of `image.split(',')[1] || image` (data-URL prefix stripping used
by both prompt assemblers): the second comma-separated piece when it exists
and is non-empty, otherwise the whole string. -/
def stripDataUrl (s : String) : String :=
  match (takeUntilComma s.data).2 with
  | none => s
  | some rest =>
    let second := (takeUntilComma rest).1
    if second.isEmpty then s else ⟨second⟩

/-! ## JSON values and a model of `JSON.parse`

Both implementations deserialize the provider's response body with the
JavaScript builtin `JSON.parse`.  `Json` is a JSON value tree (numbers are
kept as their source lexemes — no claim inspects numeric values) and
`jsonParse` is an executable parser for the JSON grammar; invalid input
yields `none`, which corresponds to `JSON.parse` throwing a `SyntaxError`. -/

inductive Json where
  | null
  | bool (b : Bool)
  | num (raw : String)
  | str (s : String)
  | arr (elems : List Json)
  | obj (fields : List (String × Json))
deriving Repr

def isJsonWs (c : Char) : Bool :=
  c = ' ' || c = '\t' || c = '\n' || c = '\r'

def skipWs : List Char → List Char
  | [] => []
  | c :: cs => if isJsonWs c then skipWs cs else c :: cs

def hexVal (c : Char) : Option Nat :=
  if c.isDigit then some (c.toNat - 48)
  else if 'a' ≤ c && c ≤ 'f' then some (c.toNat - 87)
  else if 'A' ≤ c && c ≤ 'F' then some (c.toNat - 55)
  else none

def escMap (c : Char) : Option Char :=
  if c = '"' then some '"'
  else if c = '\\' then some '\\'
  else if c = '/' then some '/'
  else if c = 'b' then some (Char.ofNat 8)
  else if c = 'f' then some (Char.ofNat 12)
  else if c = 'n' then some '\n'
  else if c = 'r' then some '\r'
  else if c = 't' then some '\t'
  else none

/-- Body of a JSON string literal (after the opening quote); returns the
decoded characters and the rest of the input. -/
def parseStringBody : List Char → Option (List Char × List Char)
  | [] => none
  | c :: cs =>
    if c = '"' then some ([], cs)
    else if c = '\\' then
      match cs with
      | [] => none
      | e :: cs2 =>
        if e = 'u' then
          match cs2 with
          | h1 :: h2 :: h3 :: h4 :: cs3 =>
            match hexVal h1, hexVal h2, hexVal h3, hexVal h4 with
            | some a, some b, some c4, some d =>
              (parseStringBody cs3).map
                (fun r => (Char.ofNat (((a * 16 + b) * 16 + c4) * 16 + d) :: r.1, r.2))
            | _, _, _, _ => none
          | _ => none
        else
          match escMap e with
          | some ec => (parseStringBody cs2).map (fun r => (ec :: r.1, r.2))
          | none => none
    else if c.toNat < 32 then none
    else (parseStringBody cs).map (fun r => (c :: r.1, r.2))

def takeDigits : List Char → (List Char × List Char)
  | [] => ([], [])
  | c :: cs =>
    if c.isDigit then
      let r := takeDigits cs
      (c :: r.1, r.2)
    else ([], c :: cs)

/-- Optional fraction and exponent of a JSON number, appended to the lexeme
accumulated so far. -/
def numTail (acc : List Char) (cs : List Char) : Option (List Char × List Char) :=
  let fr : Option (List Char × List Char) :=
    match cs with
    | '.' :: rest =>
      let r := takeDigits rest
      if r.1.isEmpty then none else some (acc ++ '.' :: r.1, r.2)
    | _ => some (acc, cs)
  match fr with
  | none => none
  | some (acc2, cs2) =>
    match cs2 with
    | e :: rest =>
      if e = 'e' || e = 'E' then
        let sr : List Char × List Char :=
          match rest with
          | '+' :: r => (['+'], r)
          | '-' :: r => (['-'], r)
          | _ => ([], rest)
        let ds := takeDigits sr.2
        if ds.1.isEmpty then none else some (acc2 ++ e :: sr.1 ++ ds.1, ds.2)
      else some (acc2, cs2)
    | [] => some (acc2, cs2)

/-- A JSON number lexeme: `-? (0 | [1-9][0-9]*) frac? exp?`. -/
def parseNumber (cs : List Char) : Option (List Char × List Char) :=
  let split : List Char × List Char :=
    match cs with
    | '-' :: rest => (['-'], rest)
    | _ => ([], cs)
  match split.2 with
  | [] => none
  | c :: rest =>
    if c = '0' then numTail (split.1 ++ ['0']) rest
    else if c.isDigit then
      let r := takeDigits rest
      numTail (split.1 ++ c :: r.1) r.2
    else none

def stripPrefixChars : List Char → List Char → Option (List Char)
  | [], cs => some cs
  | p :: ps, c :: cs => if c = p then stripPrefixChars ps cs else none
  | _ :: _, [] => none

mutual

/-- A JSON value (fuelled; fuel `length + 1` suffices since every recursive
step consumes at least one input character). -/
def parseValue : Nat → List Char → Option (Json × List Char)
  | 0, _ => none
  | fuel + 1, cs =>
    match skipWs cs with
    | [] => none
    | c :: rest =>
      if c = '"' then (parseStringBody rest).map (fun r => (.str ⟨r.1⟩, r.2))
      else if c = '\x7b' then parseMembers fuel (skipWs rest) true []
      else if c = '[' then parseElements fuel (skipWs rest) true []
      else if c = 't' then (stripPrefixChars ['r', 'u', 'e'] rest).map (fun r => (.bool true, r))
      else if c = 'f' then (stripPrefixChars ['a', 'l', 's', 'e'] rest).map (fun r => (.bool false, r))
      else if c = 'n' then (stripPrefixChars ['u', 'l', 'l'] rest).map (fun r => (.null, r))
      else if c = '-' || c.isDigit then (parseNumber (c :: rest)).map (fun r => (.num ⟨r.1⟩, r.2))
      else none

/-- Members of a JSON object after the opening brace (input ws-skipped);
`first` is true before the first pair, so a closing brace is accepted only
for the empty object or right after a pair. -/
def parseMembers : Nat → List Char → Bool → List (String × Json) → Option (Json × List Char)
  | 0, _, _, _ => none
  | fuel + 1, cs, first, acc =>
    match cs with
    | [] => none
    | c :: rest =>
      if c = '\x7d' then
        if first then some (.obj acc.reverse, rest) else none
      else if c = '"' then
        match parseStringBody rest with
        | none => none
        | some (key, rest2) =>
          match skipWs rest2 with
          | ':' :: rest3 =>
            match parseValue fuel rest3 with
            | none => none
            | some (v, rest4) =>
              match skipWs rest4 with
              | ',' :: rest5 => parseMembers fuel (skipWs rest5) false ((⟨key⟩, v) :: acc)
              | d :: rest5 =>
                if d = '\x7d' then some (.obj (((⟨key⟩ : String), v) :: acc).reverse, rest5)
                else none
              | [] => none
          | _ => none
      else none

/-- Elements of a JSON array after the opening bracket (input ws-skipped). -/
def parseElements : Nat → List Char → Bool → List Json → Option (Json × List Char)
  | 0, _, _, _ => none
  | fuel + 1, cs, first, acc =>
    match cs with
    | ']' :: rest =>
      if first then some (.arr acc.reverse, rest) else none
    | _ =>
      match parseValue fuel cs with
      | none => none
      | some (v, rest) =>
        match skipWs rest with
        | ',' :: rest2 => parseElements fuel (skipWs rest2) false (v :: acc)
        | ']' :: rest2 => some (.arr (v :: acc).reverse, rest2)
        | _ => none

end

/-- Model of the JavaScript builtin `JSON.parse`: `some` of the parsed value
on valid JSON (with nothing but whitespace after it), `none` where
`JSON.parse` throws a `SyntaxError`. -/
def jsonParse (s : String) : Option Json :=
  match parseValue (s.length + 1) s.data with
  | none => none
  | some (v, rest) => if (skipWs rest).isEmpty then some v else none

/-- Property access on a parsed JSON object (JS semantics: with duplicate
keys the later one wins); `none` for a missing key or a non-object. -/
def jsonGetField (v : Json) (key : String) : Option Json :=
  match v with
  | .obj fs => (fs.reverse.find? (fun p => p.1 == key)).map (·.2)
  | _ => none

/-! ## Provider errors and attempt outcomes -/

/-- One entry of a Gemini error's `details` array: its `@type` tag (absent
modelled as `""`) and optional `retryDelay` field. -/
structure ErrorDetail where
  atType : String
  retryDelay : Option String
deriving Repr, DecidableEq

/-- An error thrown by the provider SDK call: optional HTTP `status`, a
`message`, and the optional structured `details` array. -/
structure ProviderError where
  status : Option Nat
  message : String
  details : Option (List ErrorDetail)
deriving Repr, DecidableEq

/-- What the provider does on one invocation: network success carrying the
raw response body (`none` = the SDK's `response.text` was `undefined`), or a
thrown error. -/
inductive Outcome where
  | ok (text : Option String)
  | err (e : ProviderError)
deriving Repr

/-- `error.details.find(d => d['@type']?.includes('RetryInfo') && d.retryDelay)`
followed by the `retryInfo && retryInfo.retryDelay` guard (both
implementations use this shape): the `retryDelay` string of the first
RetryInfo detail carrying a truthy one. -/
def findRetryInfo (e : ProviderError) : Option String :=
  match e.details with
  | none => none
  | some ds =>
    match ds.find? (fun d => strContains d.atType "RetryInfo" && truthyStr d.retryDelay) with
    | some d => d.retryDelay
    | none => none

/-- Decimal value of a digit run (`parseInt` on an all-digit string). -/
def digitsValAux (acc : Nat) : List Char → Nat
  | [] => acc
  | c :: cs => digitsValAux (acc * 10 + (c.toNat - 48)) cs

/-- The regex `^(\d+)(s|ms)$` applied to a retry-delay string, yielding the
delay in milliseconds (`parseInt` of the digits, times 1000 for the `s`
unit): one or more digits followed by exactly `s` or `ms`. -/
def parseRetryDelay (s : String) : Option Nat :=
  let r := takeDigits s.data
  if r.1.isEmpty then none
  else
    match r.2 with
    | ['s'] => some (digitsValAux 0 r.1 * 1000)
    | ['m', 's'] => some (digitsValAux 0 r.1)
    | _ => none

/-! ## SPA service: `analyzeCreative` (src/services/geminiService.ts) -/

/-- `error.status === 429 || error.status === 503 || (error.message &&
(error.message.includes('Resource has been exhausted') ||
error.message.includes('Quota exceeded')))`. -/
def spaIsRetryable (e : ProviderError) : Bool :=
  e.status == some 429 || e.status == some 503 ||
    (!(e.message == "") &&
      (strContains e.message "Resource has been exhausted" ||
       strContains e.message "Quota exceeded"))

def spaMaxRetries : Nat := 4

/-- `const backoffDelays = [2000, 5000, 15000, 35000]`. -/
def backoffDelays : List Nat := [2000, 5000, 15000, 35000]

/-- SPA delay selection: the parsed RetryInfo delay when present and
non-zero (the source initializes `delay = 0` and falls back on
`delay === 0`), otherwise `backoffDelays[attempt] || 35000`. -/
def spaDelay (e : ProviderError) (attempt : Nat) : Nat :=
  let guided : Nat :=
    match findRetryInfo e with
    | some rd => (parseRetryDelay rd).getD 0
    | none => 0
  if guided == 0 then backoffDelays.getD attempt 35000 else guided

def spaParseErrorMsg : String := "Resposta inválida do motor de IA (JSON Parse Error)."

/-- The `new Error(...)` thrown when `JSON.parse` of the response body
fails in the SPA service. -/
def spaParseError : ProviderError := ⟨none, spaParseErrorMsg, none⟩

def spaOverloadedMsg : String :=
  "Serviço temporariamente sobrecarregado. Por favor, aguarde 1 minuto e tente novamente."

/-- The final user message after retries are exhausted or a non-retryable
error: the overloaded message for status 429, else the generic
`Falha na análise após N tentativas` message. -/
def spaFinalMessage (e : ProviderError) (attempt : Nat) : String :=
  if e.status == some 429 then spaOverloadedMsg
  else "Falha na análise após " ++ toString (attempt + 1) ++ " tentativas. " ++ e.message

/-- One try-block body of the SPA loop: invoke, then
`const textResult = response.text || '\x7b\x7d'` and `JSON.parse(textResult)`;
a parse failure throws `spaParseError`, caught by the same catch clause as
provider errors. -/
def spaAttemptStep (oracle : Nat → Outcome) (idx : Nat) : Except ProviderError Json :=
  match oracle idx with
  | .ok t =>
    let textResult := if (t.getD "") = "" then "\x7b\x7d" else t.getD ""
    match jsonParse textResult with
    | some v => .ok v
    | none => .error spaParseError
  | .err e => .error e

/-- Result of the SPA call: the parsed value returned, or the message of the
thrown `Error`. -/
inductive SpaResult where
  | success (v : Json)
  | failure (msg : String)
deriving Repr

/-- Observable trace of one SPA call: its result, how many provider
invocations were made, and the `sleep` delays awaited between attempts. -/
structure SpaRun where
  result : SpaResult
  invocations : Nat
  delays : List Nat
deriving Repr

/-- The `while (attempt < maxRetries)` loop of `analyzeCreative`, fuelled
(first `Nat`); entered with fuel `spaMaxRetries` at `attempt = 0`, and the
retry guard `attempt < maxRetries - 1` keeps fuel ahead of the loop
counter, so the fuel-exhausted branch — which returns the loop's own
fall-through error — is never reached from `analyzeCreative`. -/
def analyzeCreativeLoop (oracle : Nat → Outcome) : Nat → Nat → SpaRun
  | 0, _ => ⟨.failure "Erro desconhecido na análise.", 0, []⟩
  | fuel + 1, attempt =>
    if attempt < spaMaxRetries then
      match spaAttemptStep oracle attempt with
      | .ok v => ⟨.success v, 1, []⟩
      | .error e =>
        if spaIsRetryable e && decide (attempt < spaMaxRetries - 1) then
          let d := spaDelay e attempt
          let rest := analyzeCreativeLoop oracle fuel (attempt + 1)
          ⟨rest.result, rest.invocations + 1, d :: rest.delays⟩
        else ⟨.failure (spaFinalMessage e attempt), 1, []⟩
    else ⟨.failure "Erro desconhecido na análise.", 0, []⟩

/-- `analyzeCreative` of the SPA service.  `apiKey` models
`import.meta.env.VITE_GEMINI_API_KEY` (`if (!apiKey) throw ...`); `input`
and `base64Image` build the content parts, which do not influence the
orchestration trace (the SPA has no fallback path). -/
def analyzeCreative (apiKey : Option String) (oracle : Nat → Outcome)
    (input : String) (base64Image : Option String) : SpaRun :=
  let _contents := [input] ++ (match base64Image with
    | some img => if img = "" then [] else [stripDataUrl img]
    | none => [])
  if truthyStr apiKey = false then ⟨.failure "API Key configuration error", 0, []⟩
  else analyzeCreativeLoop oracle spaMaxRetries 0

/-! ## API route: `POST /api/analyze` with `attemptGeneration`
(src/next-app/context/AnalysisContext.tsx, route-handler section) -/

/-- `error.status === 429 || error.message?.includes('429') ||
error.message?.includes('RESOURCE_EXHAUSTED')`. -/
def routeIsQuotaError (e : ProviderError) : Bool :=
  e.status == some 429 || strContains e.message "429" ||
    strContains e.message "RESOURCE_EXHAUSTED"

/-- `isQuotaError || error.status === 503 || error.status === 500 ||
error.message?.includes('timeout') || error.message?.includes('network')`. -/
def routeIsRetryable (e : ProviderError) : Bool :=
  routeIsQuotaError e || e.status == some 503 || e.status == some 500 ||
    strContains e.message "timeout" || strContains e.message "network"

/-- Route delay selection: exponential backoff
`Math.pow(2, retryCount) * 2000`, overridden by the parsed RetryInfo delay
whenever the delay string matches the regex (unlike the SPA, a parsed `0`
is used as-is). -/
def routeDelay (e : ProviderError) (retryCount : Nat) : Nat :=
  let base := 2 ^ retryCount * 2000
  match findRetryInfo e with
  | some rd =>
    match parseRetryDelay rd with
    | some v => v
    | none => base
  | none => base

/-- One content part of the assembled prompt. -/
inductive Part where
  | text (s : String)
  | inlineData (mimeType : String) (data : String)
deriving Repr, DecidableEq

/-- The route's `buildParts(useImage)` helper: a text part when `text` is
truthy, then the inline-image part when `image` is truthy and `useImage`
holds (base64 data stripped of a data-URL prefix, fixed `image/png` MIME
type). -/
def buildParts (text image : Option String) (useImage : Bool) : List Part :=
  (match text with
   | some t => if t = "" then [] else [Part.text t]
   | none => []) ++
  (match image with
   | some img => if img ≠ "" && useImage then [Part.inlineData "image/png" (stripDataUrl img)] else []
   | none => [])

/-- A payload contains an inline-image part. -/
def hasInline (ps : List Part) : Bool :=
  ps.any fun p =>
    match p with
    | .inlineData _ _ => true
    | _ => false

/-- Model of the `SyntaxError` thrown by `JSON.parse` on invalid response
text in the route handler: no HTTP status, no details; the message is a
representative of the platform's `Unexpected token ...` messages (the
engine-specific wording varies, but carries no status code). -/
def jsonSyntaxError : ProviderError := ⟨none, "Unexpected token in JSON", none⟩

/-- One try-block body of `attemptGeneration`: invoke, take
`response.text()` and `JSON.parse` it; a parse failure throws the
`SyntaxError`, caught by the same catch clause as provider errors. -/
def routeAttemptStep (oracle : Nat → Outcome) (idx : Nat) : Except ProviderError Json :=
  match oracle idx with
  | .ok t =>
    match jsonParse (t.getD "") with
    | some v => .ok v
    | none => .error jsonSyntaxError
  | .err e => .error e

def degradedWarning : String :=
  "A análise visual falhou (Erro/Segurança). Resultados baseados apenas em texto."

/-- The `\x7b ...JSON.parse(response.text()), warning: ... \x7d` spread of the
fallback's parsed result: every existing `warning` entry is dropped and the
degraded-mode warning appended (a JS spread of a non-object contributes no
fields). -/
def setWarning (v : Json) : Json :=
  match v with
  | .obj fs => .obj (fs.filter (fun p => p.1 != "warning") ++ [("warning", .str degradedWarning)])
  | _ => .obj [("warning", .str degradedWarning)]

/-- Result of `attemptGeneration`: the parsed (possibly warning-tagged)
value, or the error object it rethrows. -/
inductive RouteResult where
  | success (v : Json)
  | failure (e : ProviderError)
deriving Repr

/-- Observable trace of one `attemptGeneration` call: its result, the list
of payloads sent to the provider in order, and the awaited delays. -/
structure RouteRun where
  result : RouteResult
  sent : List (List Part)
  delays : List Nat
deriving Repr

/-- `attemptGeneration(retryCount)` of the route handler, fuelled (first
`Nat`).  The oracle is indexed by the invocation number, which for every
reachable frame equals `retryCount` (one invocation per frame); the
fallback invocation inside the final frame is number `retryCount + 1`.
Entered with fuel `4` at `retryCount = 0`; the `retryCount < 3` retry guard
keeps fuel positive, so the fuel-exhausted branch is unreachable from
`attemptGenerationMain`. -/
def attemptGeneration (oracle : Nat → Outcome) (text image : Option String) :
    Nat → Nat → RouteRun
  | 0, _ => ⟨.failure ⟨none, "", none⟩, [], []⟩
  | fuel + 1, retryCount =>
    let useImage := truthyStr image
    let parts := buildParts text image useImage
    match routeAttemptStep oracle retryCount with
    | .ok v => ⟨.success v, [parts], []⟩
    | .error e =>
      if decide (retryCount < 3) && routeIsRetryable e then
        let d := routeDelay e retryCount
        let rest := attemptGeneration oracle text image fuel (retryCount + 1)
        ⟨rest.result, parts :: rest.sent, d :: rest.delays⟩
      else if useImage && truthyStr text && decide (1 ≤ retryCount) then
        let textParts := buildParts text image false
        match routeAttemptStep oracle (retryCount + 1) with
        | .ok v => ⟨.success (setWarning v), [parts, textParts], []⟩
        | .error fe => ⟨.failure fe, [parts, textParts], []⟩
      else ⟨.failure e, [parts], []⟩

/-- The route's top-level `attemptGeneration()` call (default
`retryCount = 0`; fuel 4 covers the maximum recursion depth). -/
def attemptGenerationMain (oracle : Nat → Outcome) (text image : Option String) : RouteRun :=
  attemptGeneration oracle text image 4 0

/-- The zod field schema `z.string().optional()` applied to a looked-up
body field: absent is fine, a JSON string is fine, any other value is a
type error. -/
def zodOptionalString (v : Option Json) : Option (Option String) :=
  match v with
  | none => some none
  | some (.str s) => some (some s)
  | some _ => none

/-- `AnalyzeSchema.safeParse`: a `z.object` of two optional strings refined
by `data.text || data.image` (JS truthiness, so empty strings fail the
refinement); `none` models `success: false`. -/
def analyzeSchemaSafeParse (body : Json) : Option (Option String × Option String) :=
  match body with
  | .obj _ =>
    match zodOptionalString (jsonGetField body "text"),
          zodOptionalString (jsonGetField body "image") with
    | some t, some i => if truthyStr t || truthyStr i then some (t, i) else none
    | _, _ => none
  | _ => none

def routeQuotaMsg : String :=
  "Limite de requisições excedido. Por favor, tente novamente em alguns instantes."

def routeGenericMsg : String := "Erro interno no processamento de IA."

def routeNoKeyMsg : String := "Configuração de API Key ausente no servidor."

/-- Observable result of one `POST /api/analyze` request: the HTTP status,
the success body or error message, and the provider-invocation trace. -/
structure PostRun where
  status : Nat
  body : Option Json
  errorMsg : Option String
  invocations : Nat
  delays : List Nat
deriving Repr

/-- The route handler `POST`, for a request whose body is the JSON value
`body`: zod validation (400 on failure), the server-side API-key check
(500 when `process.env.GEMINI_API_KEY` is falsy), then `attemptGeneration`;
a thrown error is mapped by the outer catch to `error.status || 500` with
the quota or generic message. -/
def POST (apiKey : Option String) (oracle : Nat → Outcome) (body : Json) : PostRun :=
  match analyzeSchemaSafeParse body with
  | none => ⟨400, none, some "Input inválido", 0, []⟩
  | some (text, image) =>
    if truthyStr apiKey = false then ⟨500, none, some routeNoKeyMsg, 0, []⟩
    else
      let run := attemptGenerationMain oracle text image
      match run.result with
      | .success v => ⟨200, some v, none, run.sent.length, run.delays⟩
      | .failure e =>
        let st := e.status.getD 0
        ⟨if st = 0 then 500 else st, none,
          some (if routeIsQuotaError e then routeQuotaMsg else routeGenericMsg),
          run.sent.length, run.delays⟩

/-! ## One-frame unfolding lemmas for the two retry loops -/

theorem spa_step_success (oracle : Nat → Outcome) (fuel attempt : Nat) (v : Json)
    (ha : attempt < spaMaxRetries) (h : spaAttemptStep oracle attempt = .ok v) :
    analyzeCreativeLoop oracle (fuel + 1) attempt = ⟨.success v, 1, []⟩ := by
  simp [analyzeCreativeLoop, ha, h]

theorem spa_step_retry (oracle : Nat → Outcome) (fuel attempt : Nat) (e : ProviderError)
    (ha : attempt < spaMaxRetries) (h : spaAttemptStep oracle attempt = .error e)
    (hr : spaIsRetryable e = true) (hlt : attempt < spaMaxRetries - 1) :
    analyzeCreativeLoop oracle (fuel + 1) attempt =
      ⟨(analyzeCreativeLoop oracle fuel (attempt + 1)).result,
       (analyzeCreativeLoop oracle fuel (attempt + 1)).invocations + 1,
       spaDelay e attempt :: (analyzeCreativeLoop oracle fuel (attempt + 1)).delays⟩ := by
  simp [analyzeCreativeLoop, ha, h, hr, hlt]

theorem spa_step_terminal (oracle : Nat → Outcome) (fuel attempt : Nat) (e : ProviderError)
    (ha : attempt < spaMaxRetries) (h : spaAttemptStep oracle attempt = .error e)
    (hc : spaIsRetryable e = false ∨ ¬attempt < spaMaxRetries - 1) :
    analyzeCreativeLoop oracle (fuel + 1) attempt =
      ⟨.failure (spaFinalMessage e attempt), 1, []⟩ := by
  rcases hc with hc | hc <;> simp [analyzeCreativeLoop, ha, h, hc]

theorem route_step_success (oracle : Nat → Outcome) (text image : Option String)
    (fuel rc : Nat) (v : Json) (h : routeAttemptStep oracle rc = .ok v) :
    attemptGeneration oracle text image (fuel + 1) rc =
      ⟨.success v, [buildParts text image (truthyStr image)], []⟩ := by
  simp [attemptGeneration, h]

theorem route_step_retry (oracle : Nat → Outcome) (text image : Option String)
    (fuel rc : Nat) (e : ProviderError) (h : routeAttemptStep oracle rc = .error e)
    (hrc : rc < 3) (hr : routeIsRetryable e = true) :
    attemptGeneration oracle text image (fuel + 1) rc =
      ⟨(attemptGeneration oracle text image fuel (rc + 1)).result,
       buildParts text image (truthyStr image) :: (attemptGeneration oracle text image fuel (rc + 1)).sent,
       routeDelay e rc :: (attemptGeneration oracle text image fuel (rc + 1)).delays⟩ := by
  simp [attemptGeneration, h, hrc, hr]

theorem route_step_fallback_ok (oracle : Nat → Outcome) (text image : Option String)
    (fuel rc : Nat) (e : ProviderError) (v : Json)
    (h : routeAttemptStep oracle rc = .error e)
    (hc : ¬(rc < 3 ∧ routeIsRetryable e = true))
    (hi : truthyStr image = true) (ht : truthyStr text = true) (hrc : 1 ≤ rc)
    (hf : routeAttemptStep oracle (rc + 1) = .ok v) :
    attemptGeneration oracle text image (fuel + 1) rc =
      ⟨.success (setWarning v),
       [buildParts text image true, buildParts text image false], []⟩ := by
  rcases Decidable.not_and_iff_or_not.mp hc with hc | hc
  · simp [attemptGeneration, h, hc, hi, ht, hrc, hf]
  · simp [attemptGeneration, h, Bool.eq_false_iff.mpr hc, hi, ht, hrc, hf]

theorem route_step_fallback_err (oracle : Nat → Outcome) (text image : Option String)
    (fuel rc : Nat) (e fe : ProviderError)
    (h : routeAttemptStep oracle rc = .error e)
    (hc : ¬(rc < 3 ∧ routeIsRetryable e = true))
    (hi : truthyStr image = true) (ht : truthyStr text = true) (hrc : 1 ≤ rc)
    (hf : routeAttemptStep oracle (rc + 1) = .error fe) :
    attemptGeneration oracle text image (fuel + 1) rc =
      ⟨.failure fe, [buildParts text image true, buildParts text image false], []⟩ := by
  rcases Decidable.not_and_iff_or_not.mp hc with hc | hc
  · simp [attemptGeneration, h, hc, hi, ht, hrc, hf]
  · simp [attemptGeneration, h, Bool.eq_false_iff.mpr hc, hi, ht, hrc, hf]

theorem route_step_throw (oracle : Nat → Outcome) (text image : Option String)
    (fuel rc : Nat) (e : ProviderError)
    (h : routeAttemptStep oracle rc = .error e)
    (hc : ¬(rc < 3 ∧ routeIsRetryable e = true))
    (hnf : ¬(truthyStr image = true ∧ truthyStr text = true ∧ 1 ≤ rc)) :
    attemptGeneration oracle text image (fuel + 1) rc =
      ⟨.failure e, [buildParts text image (truthyStr image)], []⟩ := by
  have hb : (truthyStr image && truthyStr text && decide (1 ≤ rc)) = false := by
    cases hi : truthyStr image with
    | false => simp [hi]
    | true =>
      cases ht : truthyStr text with
      | false => simp [ht]
      | true =>
        have : ¬1 ≤ rc := fun hle => hnf ⟨hi, ht, hle⟩
        simp [hi, ht, this]
  rcases Decidable.not_and_iff_or_not.mp hc with hc2 | hc2
  · simp only [attemptGeneration, h]
    simp [hc2, hb]
  · simp only [attemptGeneration, h]
    simp [Bool.eq_false_iff.mpr hc2, hb]

/-! ## Claim theorems -/

/-- C1: for a provider that fails every attempt with status 429, the SPA
retry controller makes exactly `maxRetries = 4` invocation attempts and then
raises the provider-overloaded "try again shortly" error; the API route's
controller likewise makes exactly 4 attempts for a text submission and the
response carries HTTP 429 with the quota "try again shortly" message. -/
theorem c1_retry_bound_429 (oracle : Nat → Outcome) (errs : Nat → ProviderError)
    (hor : ∀ n, oracle n = .err (errs n)) (hst : ∀ n, (errs n).status = some 429)
    (apiKey : Option String) (hkey : truthyStr apiKey = true)
    (input : String) (img : Option String)
    (t : String) (ht : t ≠ "") :
    ((analyzeCreative apiKey oracle input img).invocations = 4 ∧
     (analyzeCreative apiKey oracle input img).result = .failure spaOverloadedMsg) ∧
    ((attemptGenerationMain oracle (some t) none).sent.length = 4 ∧
     (POST apiKey oracle (Json.obj [("text", .str t)])).invocations = 4 ∧
     (POST apiKey oracle (Json.obj [("text", .str t)])).status = 429 ∧
     (POST apiKey oracle (Json.obj [("text", .str t)])).errorMsg = some routeQuotaMsg) := by
  have hretr : ∀ n, spaIsRetryable (errs n) = true := by
    intro n; simp [spaIsRetryable, hst n]
  have hstep : ∀ n, spaAttemptStep oracle n = .error (errs n) := by
    intro n; simp [spaAttemptStep, hor n]
  have hrstep : ∀ n, routeAttemptStep oracle n = .error (errs n) := by
    intro n; simp [routeAttemptStep, hor n]
  have hrretr : ∀ n, routeIsRetryable (errs n) = true := by
    intro n; simp [routeIsRetryable, routeIsQuotaError, hst n]
  have hq : ∀ n, routeIsQuotaError (errs n) = true := by
    intro n; simp [routeIsQuotaError, hst n]
  have hroute : (attemptGenerationMain oracle (some t) none).sent.length = 4 ∧
      (attemptGenerationMain oracle (some t) none).result = .failure (errs 3) := by
    simp [attemptGenerationMain, attemptGeneration, hrstep, hrretr,
      truthyStr, buildParts, ht]
  have hspa : (analyzeCreative apiKey oracle input img).invocations = 4 ∧
      (analyzeCreative apiKey oracle input img).result = .failure spaOverloadedMsg := by
    simp [analyzeCreative, hkey, analyzeCreativeLoop, hstep, hretr,
      spaMaxRetries, spaFinalMessage, spaOverloadedMsg, hst 3]
  have hkey2 := hkey
  simp only [truthyStr] at hkey2
  refine ⟨hspa, hroute.1, ?_, ?_, ?_⟩ <;>
    simp [POST, analyzeSchemaSafeParse, zodOptionalString, jsonGetField,
      truthyStr, ht, hkey2, hroute.1, hroute.2, hst 3, hq 3]

/-- C1 witness: a concrete always-429 provider. -/
theorem c1_retry_bound_429_witness :
    ((analyzeCreative (some "k") (fun _ => .err ⟨some 429, "quota", none⟩) "t" none).invocations = 4 ∧
     (analyzeCreative (some "k") (fun _ => .err ⟨some 429, "quota", none⟩) "t" none).result =
       .failure spaOverloadedMsg) ∧
    ((attemptGenerationMain (fun _ => .err ⟨some 429, "quota", none⟩) (some "t") none).sent.length = 4 ∧
     (POST (some "k") (fun _ => .err ⟨some 429, "quota", none⟩) (Json.obj [("text", .str "t")])).invocations = 4 ∧
     (POST (some "k") (fun _ => .err ⟨some 429, "quota", none⟩) (Json.obj [("text", .str "t")])).status = 429 ∧
     (POST (some "k") (fun _ => .err ⟨some 429, "quota", none⟩) (Json.obj [("text", .str "t")])).errorMsg =
       some routeQuotaMsg) :=
  c1_retry_bound_429 (fun _ => .err ⟨some 429, "quota", none⟩) (fun _ => ⟨some 429, "quota", none⟩)
    (fun _ => rfl) (fun _ => rfl) (some "k") rfl "t" none "t" (by decide)

/-- Every frame of the SPA loop performs at least one provider invocation. -/
theorem spaLoop_invokes (oracle : Nat → Outcome) (fuel attempt : Nat)
    (ha : attempt < spaMaxRetries) :
    1 ≤ (analyzeCreativeLoop oracle (fuel + 1) attempt).invocations := by
  rcases hs : spaAttemptStep oracle attempt with e | v
  · by_cases hc : spaIsRetryable e = true ∧ attempt < spaMaxRetries - 1
    · rw [spa_step_retry oracle fuel attempt e ha hs hc.1 hc.2]
      simp
    · rcases Decidable.not_and_iff_or_not.mp hc with h | h
      · rw [spa_step_terminal oracle fuel attempt e ha hs (Or.inl (Bool.eq_false_iff.mpr h))]
      · rw [spa_step_terminal oracle fuel attempt e ha hs (Or.inr h)]
  · rw [spa_step_success oracle fuel attempt v ha hs]

/-- C2 counterexample: the claim declares every 5xx other than 503
terminal with no retry, but the API route classifies status 500 as
retryable and retries it to exhaustion (4 invocation attempts). -/
theorem c2_counterexample_status500_retried :
    routeIsRetryable ⟨some 500, "Internal Server Error", none⟩ = true ∧
    (attemptGenerationMain (fun _ => .err ⟨some 500, "Internal Server Error", none⟩)
        (some "t") none).sent.length = 4 := by
  exact ⟨rfl, rfl⟩

/-- C2 amended: the stated classification (retryable iff status 429 or 503
or a quota/resource-exhaustion message; everything else terminal with no
retry) holds for the SPA service; the API route additionally treats status
500 and messages containing '429', 'RESOURCE_EXHAUSTED', 'timeout' or
'network' as retryable.  Behaviorally, a non-retryable first error makes
the SPA terminate after exactly one invocation with no backoff wait, and a
retryable first error makes it invoke again. -/
theorem c2_classification_amended :
    (∀ e : ProviderError, spaIsRetryable e = true ↔
      (e.status = some 429 ∨ e.status = some 503 ∨
       strContains e.message "Resource has been exhausted" = true ∨
       strContains e.message "Quota exceeded" = true)) ∧
    (∀ e : ProviderError, routeIsRetryable e = true ↔
      (e.status = some 429 ∨ strContains e.message "429" = true ∨
       strContains e.message "RESOURCE_EXHAUSTED" = true ∨
       e.status = some 503 ∨ e.status = some 500 ∨
       strContains e.message "timeout" = true ∨
       strContains e.message "network" = true)) ∧
    (∀ (oracle : Nat → Outcome) (e : ProviderError) (key : Option String)
       (input : String) (img : Option String),
      truthyStr key = true → oracle 0 = .err e → spaIsRetryable e = false →
      (analyzeCreative key oracle input img).invocations = 1 ∧
      (analyzeCreative key oracle input img).delays = [] ∧
      (analyzeCreative key oracle input img).result = .failure (spaFinalMessage e 0)) ∧
    (∀ (oracle : Nat → Outcome) (e : ProviderError) (key : Option String)
       (input : String) (img : Option String),
      truthyStr key = true → oracle 0 = .err e → spaIsRetryable e = true →
      2 ≤ (analyzeCreative key oracle input img).invocations) := by
  refine ⟨?_, ?_, ?_, ?_⟩
  · intro e
    by_cases hm : e.message = ""
    · have h1 : strContains "" "Resource has been exhausted" = false := rfl
      have h2 : strContains "" "Quota exceeded" = false := rfl
      simp [spaIsRetryable, hm, h1, h2]
    · simp [spaIsRetryable, hm, or_assoc]
  · intro e
    simp [routeIsRetryable, routeIsQuotaError, or_assoc]
  · intro oracle e key input img hkey h0 hr
    have hstep : spaAttemptStep oracle 0 = .error e := by simp [spaAttemptStep, h0]
    have h4 : analyzeCreative key oracle input img = analyzeCreativeLoop oracle 4 0 := by
      simp [analyzeCreative, hkey, spaMaxRetries]
    have hrun := h4.trans (spa_step_terminal oracle 3 0 e (by decide) hstep (Or.inl hr))
    simp [hrun]
  · intro oracle e key input img hkey h0 hr
    have hstep : spaAttemptStep oracle 0 = .error e := by simp [spaAttemptStep, h0]
    have h4 : analyzeCreative key oracle input img = analyzeCreativeLoop oracle 4 0 := by
      simp [analyzeCreative, hkey, spaMaxRetries]
    have hrun := h4.trans (spa_step_retry oracle 3 0 e (by decide) hstep hr (by decide))
    have h1 : 1 ≤ (analyzeCreativeLoop oracle 3 1).invocations :=
      spaLoop_invokes oracle 2 1 (by decide)
    rw [hrun]
    show 2 ≤ (analyzeCreativeLoop oracle 3 1).invocations + 1
    omega

/-- C2 witness: a malformed-JSON-style error (no status, no quota text) is
terminal after one invocation; a quota-message error triggers a retry. -/
theorem c2_classification_amended_witness :
    (spaIsRetryable ⟨none, "oops", none⟩ = true ↔
      ((⟨none, "oops", none⟩ : ProviderError).status = some 429 ∨
       (⟨none, "oops", none⟩ : ProviderError).status = some 503 ∨
       strContains "oops" "Resource has been exhausted" = true ∨
       strContains "oops" "Quota exceeded" = true)) ∧
    (truthyStr (some "k") = true ∧
     (fun _ : Nat => Outcome.err ⟨none, "oops", none⟩) 0 = .err ⟨none, "oops", none⟩ ∧
     spaIsRetryable ⟨none, "oops", none⟩ = false ∧
     (analyzeCreative (some "k") (fun _ => .err ⟨none, "oops", none⟩) "t" none).invocations = 1) ∧
    (spaIsRetryable ⟨none, "Quota exceeded for model", none⟩ = true ∧
     2 ≤ (analyzeCreative (some "k")
            (fun _ => .err ⟨none, "Quota exceeded for model", none⟩) "t" none).invocations) :=
  ⟨c2_classification_amended.1 ⟨none, "oops", none⟩,
   ⟨rfl, rfl, rfl,
    (c2_classification_amended.2.2.1 (fun _ => .err ⟨none, "oops", none⟩)
      ⟨none, "oops", none⟩ (some "k") "t" none rfl rfl rfl).1⟩,
   ⟨rfl,
    c2_classification_amended.2.2.2 (fun _ => .err ⟨none, "Quota exceeded for model", none⟩)
      ⟨none, "Quota exceeded for model", none⟩ (some "k") "t" none rfl rfl rfl⟩⟩

/-- C3 counterexample: with no structured retry guidance, the API route's
waits follow the exponential schedule 2s, 4s, 8s — not the claimed fixed
progressive schedule 2s, 5s, 15s (35s) for those attempt indices. -/
theorem c3_counterexample_route_schedule :
    (attemptGenerationMain (fun _ => .err ⟨some 429, "quota", none⟩)
        (some "t") none).delays = [2000, 4000, 8000] ∧
    (attemptGenerationMain (fun _ => .err ⟨some 429, "quota", none⟩)
        (some "t") none).delays ≠ [2000, 5000, 15000] :=
  ⟨rfl, by decide⟩

/-- C3 amended: parsed structured retry guidance (`<n>s` / `<n>ms`) is used
exactly by both controllers, except that a parsed value of 0 falls back to
the schedule in the SPA; without usable guidance the SPA waits per the
fixed schedule 2s/5s/15s/35s indexed by attempt (clamping to 35s), while
the API route waits per the exponential schedule `2^attempt * 2s`
(2s, 4s, 8s).  The first wait recorded by each run equals the respective
selection function applied to the first error. -/
theorem c3_delay_selection_amended :
    (∀ (e : ProviderError) (n : Nat) (rd : String) (d : Nat),
      findRetryInfo e = some rd → parseRetryDelay rd = some d → d ≠ 0 →
      spaDelay e n = d) ∧
    (∀ (e : ProviderError) (n : Nat),
      findRetryInfo e = none → spaDelay e n = backoffDelays.getD n 35000) ∧
    (∀ (e : ProviderError) (n : Nat) (rd : String) (d : Nat),
      findRetryInfo e = some rd → parseRetryDelay rd = some d →
      routeDelay e n = d) ∧
    (∀ (e : ProviderError) (n : Nat),
      findRetryInfo e = none → routeDelay e n = 2 ^ n * 2000) ∧
    (∀ (oracle : Nat → Outcome) (e : ProviderError) (key : Option String)
       (input : String) (img : Option String),
      truthyStr key = true → oracle 0 = .err e → spaIsRetryable e = true →
      (analyzeCreative key oracle input img).delays.head? = some (spaDelay e 0)) ∧
    (∀ (oracle : Nat → Outcome) (text image : Option String) (e : ProviderError),
      routeAttemptStep oracle 0 = .error e → routeIsRetryable e = true →
      (attemptGenerationMain oracle text image).delays.head? = some (routeDelay e 0)) := by
  refine ⟨?_, ?_, ?_, ?_, ?_, ?_⟩
  · intro e n rd d h1 h2 h3
    simp [spaDelay, h1, h2, h3]
  · intro e n h
    simp [spaDelay, h]
  · intro e n rd d h1 h2
    simp [routeDelay, h1, h2]
  · intro e n h
    simp [routeDelay, h]
  · intro oracle e key input img hkey h0 hr
    have hstep : spaAttemptStep oracle 0 = .error e := by simp [spaAttemptStep, h0]
    have h4 : analyzeCreative key oracle input img = analyzeCreativeLoop oracle 4 0 := by
      simp [analyzeCreative, hkey, spaMaxRetries]
    have hrun := h4.trans (spa_step_retry oracle 3 0 e (by decide) hstep hr (by decide))
    simp [hrun]
  · intro oracle text image e h hr
    have hrun := route_step_retry oracle text image 3 0 e h (by decide) hr
    simp [attemptGenerationMain, hrun]

/-- C3 witness: guidance `"5s"` overrides both schedules (5000ms at attempt
index 1, where the schedules would give 5000ms and 4000ms respectively);
without guidance the schedules apply; first recorded waits agree. -/
theorem c3_delay_selection_amended_witness :
    (findRetryInfo ⟨some 429, "q", some [⟨"type.googleapis.com/google.rpc.RetryInfo", some "5s"⟩]⟩
        = some "5s" ∧
     parseRetryDelay "5s" = some 5000 ∧
     spaDelay ⟨some 429, "q", some [⟨"type.googleapis.com/google.rpc.RetryInfo", some "5s"⟩]⟩ 1
        = 5000 ∧
     routeDelay ⟨some 429, "q", some [⟨"type.googleapis.com/google.rpc.RetryInfo", some "5s"⟩]⟩ 1
        = 5000) ∧
    (findRetryInfo ⟨some 429, "q", none⟩ = none ∧
     spaDelay ⟨some 429, "q", none⟩ 2 = backoffDelays.getD 2 35000 ∧
     routeDelay ⟨some 429, "q", none⟩ 2 = 2 ^ 2 * 2000) ∧
    (spaIsRetryable ⟨some 429, "q", none⟩ = true ∧
     (analyzeCreative (some "k") (fun _ => .err ⟨some 429, "q", none⟩) "t" none).delays.head?
        = some (spaDelay ⟨some 429, "q", none⟩ 0) ∧
     (attemptGenerationMain (fun _ => .err ⟨some 429, "q", none⟩) (some "t") none).delays.head?
        = some (routeDelay ⟨some 429, "q", none⟩ 0)) :=
  ⟨⟨rfl, rfl,
    c3_delay_selection_amended.1 _ 1 "5s" 5000 rfl rfl (by decide),
    c3_delay_selection_amended.2.2.1 _ 1 "5s" 5000 rfl rfl⟩,
   ⟨rfl,
    c3_delay_selection_amended.2.1 _ 2 rfl,
    c3_delay_selection_amended.2.2.2.1 _ 2 rfl⟩,
   ⟨rfl,
    c3_delay_selection_amended.2.2.2.2.1 (fun _ => .err ⟨some 429, "q", none⟩)
      ⟨some 429, "q", none⟩ (some "k") "t" none rfl rfl rfl,
    c3_delay_selection_amended.2.2.2.2.2 (fun _ => .err ⟨some 429, "q", none⟩)
      (some "t") none ⟨some 429, "q", none⟩ rfl rfl⟩⟩

/-- C4 counterexample: in the SPA service an absent response body is
defaulted to the string `'\x7b\x7d'`, which parses to the empty object and is
returned as a silent success — not a malformed-response error. -/
theorem c4_counterexample_empty_body_success :
    (analyzeCreative (some "k") (fun _ => .ok none) "t" none).result
        = .success (Json.obj []) ∧
    (analyzeCreative (some "k") (fun _ => .ok none) "t" none).invocations = 1 :=
  ⟨rfl, rfl⟩

/-- C4 amended: for any non-empty response text that is not valid JSON the
SPA raises the malformed-response failure (terminal after one invocation,
distinguishable by its fixed message) and the route's attempt yields the
`SyntaxError`; however an empty or absent body in the SPA is defaulted to
`'\x7b\x7d'` and is returned as a successfully parsed empty object. -/
theorem c4_malformed_raises_amended :
    (∀ (oracle : Nat → Outcome) (key : Option String) (input : String)
       (img : Option String) (t : String),
      truthyStr key = true → oracle 0 = .ok (some t) → t ≠ "" → jsonParse t = none →
      (analyzeCreative key oracle input img).result =
        .failure ("Falha na análise após 1 tentativas. " ++ spaParseErrorMsg) ∧
      (analyzeCreative key oracle input img).invocations = 1) ∧
    (∀ (oracle : Nat → Outcome) (t : Option String),
      oracle 0 = .ok t → jsonParse (t.getD "") = none →
      routeAttemptStep oracle 0 = .error jsonSyntaxError) ∧
    (∀ (oracle : Nat → Outcome) (t : Option String),
      oracle 0 = .ok t → t.getD "" = "" →
      spaAttemptStep oracle 0 = .ok (Json.obj [])) := by
  refine ⟨?_, ?_, ?_⟩
  · intro oracle key input img t hkey h0 ht hpar
    have hstep : spaAttemptStep oracle 0 = .error spaParseError := by
      simp [spaAttemptStep, h0, ht, hpar]
    have hnr : spaIsRetryable spaParseError = false := rfl
    have h4 : analyzeCreative key oracle input img = analyzeCreativeLoop oracle 4 0 := by
      simp [analyzeCreative, hkey, spaMaxRetries]
    have hrun := h4.trans (spa_step_terminal oracle 3 0 spaParseError (by decide) hstep (Or.inl hnr))
    have hmsg : spaFinalMessage spaParseError 0 =
        "Falha na análise após 1 tentativas. " ++ spaParseErrorMsg := rfl
    simp [hrun, hmsg]
  · intro oracle t h0 hpar
    simp [routeAttemptStep, h0, hpar]
  · intro oracle t h0 hd
    have : jsonParse "\x7b\x7d" = some (Json.obj []) := rfl
    simp [spaAttemptStep, h0, hd, this]

/-- C4 witness: the text `not json` is rejected as malformed by both paths;
the empty body yields the silently-parsed empty object. -/
theorem c4_malformed_raises_amended_witness :
    (jsonParse "not json" = none ∧
     (analyzeCreative (some "k") (fun _ => .ok (some "not json")) "t" none).result =
        .failure ("Falha na análise após 1 tentativas. " ++ spaParseErrorMsg)) ∧
    routeAttemptStep (fun _ => .ok (some "not json")) 0 = .error jsonSyntaxError ∧
    spaAttemptStep (fun _ => .ok (some "")) 0 = .ok (Json.obj []) :=
  ⟨⟨rfl,
    (c4_malformed_raises_amended.1 (fun _ => .ok (some "not json")) (some "k") "t" none
      "not json" rfl rfl (by decide) rfl).1⟩,
   c4_malformed_raises_amended.2.1 (fun _ => .ok (some "not json")) (some "not json") rfl rfl,
   c4_malformed_raises_amended.2.2 (fun _ => .ok (some "")) (some "") rfl rfl⟩

/-- C5 counterexample: the provider response `\x7b\x7d` parses, so the route
returns it as success even though `agents_feedback` and `persona_impact`
are entirely missing — no validation failure is raised. -/
theorem c5_counterexample_missing_fields_accepted :
    (attemptGenerationMain (fun _ => .ok (some "\x7b\x7d")) (some "t") none).result
        = .success (Json.obj []) ∧
    jsonGetField (Json.obj []) "agents_feedback" = none ∧
    jsonGetField (Json.obj []) "persona_impact" = none :=
  ⟨rfl, rfl, rfl⟩

/-- C5 amended: neither implementation validates fields client-side — every
successfully parsed JSON value, whatever its fields, is returned as the
success result; the non-emptiness of `agents_feedback`/`persona_impact` is
only requested of the provider via the declared response schema. -/
theorem c5_no_field_validation_amended :
    (∀ (oracle : Nat → Outcome) (key : Option String) (input : String)
       (img : Option String) (t : String) (v : Json),
      truthyStr key = true → oracle 0 = .ok (some t) → t ≠ "" → jsonParse t = some v →
      (analyzeCreative key oracle input img).result = .success v) ∧
    (∀ (oracle : Nat → Outcome) (text image : Option String) (t : String) (v : Json),
      oracle 0 = .ok (some t) → jsonParse t = some v →
      (attemptGenerationMain oracle text image).result = .success v) := by
  constructor
  · intro oracle key input img t v hkey h0 ht hpar
    have hstep : spaAttemptStep oracle 0 = .ok v := by
      simp [spaAttemptStep, h0, ht, hpar]
    have h4 : analyzeCreative key oracle input img = analyzeCreativeLoop oracle 4 0 := by
      simp [analyzeCreative, hkey, spaMaxRetries]
    have hrun := h4.trans (spa_step_success oracle 3 0 v (by decide) hstep)
    simp [hrun]
  · intro oracle text image t v h0 hpar
    have hstep : routeAttemptStep oracle 0 = .ok v := by
      simp [routeAttemptStep, h0, hpar]
    have hrun := route_step_success oracle text image 3 0 v hstep
    simp [attemptGenerationMain, hrun]

/-- C5 witness: a response with only `analysis_id` is accepted by both. -/
theorem c5_no_field_validation_amended_witness :
    (jsonParse "\x7b\"analysis_id\": \"x\"\x7d"
        = some (Json.obj [("analysis_id", .str "x")]) ∧
     (analyzeCreative (some "k") (fun _ => .ok (some "\x7b\"analysis_id\": \"x\"\x7d"))
        "t" none).result = .success (Json.obj [("analysis_id", .str "x")])) ∧
    (attemptGenerationMain (fun _ => .ok (some "\x7b\"analysis_id\": \"x\"\x7d"))
        (some "t") none).result = .success (Json.obj [("analysis_id", .str "x")]) :=
  ⟨⟨rfl,
    c5_no_field_validation_amended.1 (fun _ => .ok (some "\x7b\"analysis_id\": \"x\"\x7d"))
      (some "k") "t" none "\x7b\"analysis_id\": \"x\"\x7d"
      (Json.obj [("analysis_id", .str "x")]) rfl rfl (by decide) rfl⟩,
   c5_no_field_validation_amended.2 (fun _ => .ok (some "\x7b\"analysis_id\": \"x\"\x7d"))
      (some "t") none "\x7b\"analysis_id\": \"x\"\x7d"
      (Json.obj [("analysis_id", .str "x")]) rfl rfl⟩

/-- C6 counterexample: image+text request; attempt 0 fails with a
retryable 429, attempt 1 fails with a non-retryable 400 (the image-path
error triggering the fallback), and the text-only fallback fails with a
403.  The error raised to the caller is the fallback's 403 — not the
original image-path 400 (nor the 429). -/
theorem c6_counterexample_fallback_error_raised :
    (attemptGenerationMain
        (fun n => if n = 0 then Outcome.err ⟨some 429, "quota", none⟩
          else if n = 1 then Outcome.err ⟨some 400, "Bad Request", none⟩
          else Outcome.err ⟨some 403, "Forbidden", none⟩)
        (some "t") (some "img")).result = .failure ⟨some 403, "Forbidden", none⟩ ∧
    (⟨some 403, "Forbidden", none⟩ : ProviderError) ≠ ⟨some 400, "Bad Request", none⟩ ∧
    (⟨some 403, "Forbidden", none⟩ : ProviderError) ≠ ⟨some 429, "quota", none⟩ :=
  ⟨rfl, by decide, by decide⟩

/-- C6 amended: when the text-only fallback also fails, the error raised to
the caller is the fallback attempt's error (`catch (fallbackError) \x7b throw
fallbackError; \x7d`), not the original image-path error. -/
theorem c6_fallback_error_amended (oracle : Nat → Outcome) (text image : Option String)
    (fuel rc : Nat) (e fe : ProviderError)
    (h : routeAttemptStep oracle rc = .error e)
    (hc : ¬(rc < 3 ∧ routeIsRetryable e = true))
    (hi : truthyStr image = true) (ht : truthyStr text = true) (hrc : 1 ≤ rc)
    (hf : routeAttemptStep oracle (rc + 1) = .error fe) :
    (attemptGeneration oracle text image (fuel + 1) rc).result = .failure fe := by
  rw [route_step_fallback_err oracle text image fuel rc e fe h hc hi ht hrc hf]

/-- C6 witness: the counterexample trace, at the frame where the fallback
runs (`retryCount = 1`). -/
theorem c6_fallback_error_amended_witness :
    (routeAttemptStep
        (fun n => if n = 0 then Outcome.err ⟨some 429, "quota", none⟩
          else if n = 1 then Outcome.err ⟨some 400, "Bad Request", none⟩
          else Outcome.err ⟨some 403, "Forbidden", none⟩) 1
        = .error ⟨some 400, "Bad Request", none⟩ ∧
     ¬((1 : Nat) < 3 ∧ routeIsRetryable ⟨some 400, "Bad Request", none⟩ = true)) ∧
    (attemptGeneration
        (fun n => if n = 0 then Outcome.err ⟨some 429, "quota", none⟩
          else if n = 1 then Outcome.err ⟨some 400, "Bad Request", none⟩
          else Outcome.err ⟨some 403, "Forbidden", none⟩)
        (some "t") (some "img") 3 1).result = .failure ⟨some 403, "Forbidden", none⟩ :=
  ⟨⟨rfl, by decide⟩,
   c6_fallback_error_amended
     (fun n => if n = 0 then Outcome.err ⟨some 429, "quota", none⟩
       else if n = 1 then Outcome.err ⟨some 400, "Bad Request", none⟩
       else Outcome.err ⟨some 403, "Forbidden", none⟩)
     (some "t") (some "img") 2 1 ⟨some 400, "Bad Request", none⟩ ⟨some 403, "Forbidden", none⟩
     rfl (by decide) rfl rfl (by decide) rfl⟩

theorem hasInline_buildParts_useImage (text image : Option String)
    (hi : truthyStr image = true) :
    hasInline (buildParts text image true) = true := by
  cases image with
  | none => simp [truthyStr] at hi
  | some img =>
    have himg : ¬img = "" := by
      intro h
      rw [h] at hi
      simp [truthyStr] at hi
    cases text with
    | none => simp [buildParts, hasInline, himg]
    | some t => by_cases ht : t = "" <;> simp [buildParts, hasInline, himg, ht]

theorem hasInline_buildParts_textOnly (text image : Option String) :
    hasInline (buildParts text image false) = false := by
  cases image with
  | none =>
    cases text with
    | none => rfl
    | some t => by_cases ht : t = "" <;> simp [buildParts, hasInline, ht]
  | some img =>
    cases text with
    | none => simp [buildParts, hasInline]
    | some t => by_cases ht : t = "" <;> simp [buildParts, hasInline, ht]

theorem buildParts_textOnly (s : String) (image : Option String) (hs : s ≠ "") :
    buildParts (some s) image false = [Part.text s] := by
  cases image <;> simp [buildParts, hs]

theorem jsonGetField_setWarning (v : Json) :
    jsonGetField (setWarning v) "warning" = some (.str degradedWarning) := by
  cases v <;> simp [setWarning, jsonGetField]

/-- Across every frame of `attemptGeneration` on a request with a truthy
image, at most one of the payloads sent is image-free: the text-only
fallback runs at most once per orchestrated call. -/
theorem route_fallback_at_most_once (oracle : Nat → Outcome) (text image : Option String)
    (hi : truthyStr image = true) :
    ∀ (fuel rc : Nat),
      ((attemptGeneration oracle text image fuel rc).sent.filter
        (fun ps => !hasInline ps)).length ≤ 1 := by
  intro fuel
  have hmain : hasInline (buildParts text image (truthyStr image)) = true := by
    rw [hi]
    exact hasInline_buildParts_useImage text image hi
  induction fuel with
  | zero => intro rc; simp [attemptGeneration]
  | succ f ih =>
    intro rc
    rcases hs : routeAttemptStep oracle rc with e | v
    · by_cases hc : rc < 3 ∧ routeIsRetryable e = true
      · rw [route_step_retry oracle text image f rc e hs hc.1 hc.2]
        simpa [hmain] using ih (rc + 1)
      · by_cases hfb : truthyStr text = true ∧ 1 ≤ rc
        · rcases hs2 : routeAttemptStep oracle (rc + 1) with fe | v
          · rw [route_step_fallback_err oracle text image f rc e fe hs hc hi hfb.1 hfb.2 hs2]
            have hm2 := hasInline_buildParts_useImage text image hi
            have ht2 := hasInline_buildParts_textOnly text image
            simp [hm2, ht2]
          · rw [route_step_fallback_ok oracle text image f rc e v hs hc hi hfb.1 hfb.2 hs2]
            have hm2 := hasInline_buildParts_useImage text image hi
            have ht2 := hasInline_buildParts_textOnly text image
            simp [hm2, ht2]
        · have hnf : ¬(truthyStr image = true ∧ truthyStr text = true ∧ 1 ≤ rc) := by
            rintro ⟨_, hb, hc2⟩
            exact hfb ⟨hb, hc2⟩
          rw [route_step_throw oracle text image f rc e hs hc hnf]
          simp [hmain]
    · rw [route_step_success oracle text image f rc v hs]
      simp [hmain]

/-- C7: on an image+text request, once at least one image-path attempt has
failed (`retryCount ≥ 1`) and a further image-path failure is not retried,
the controller re-invokes with text-only content — the image part dropped —
and a successful fallback is returned with `warning` set to the fixed
degraded-mode message; the fallback payload is sent at most once per
orchestrated call. -/
theorem c7_fallback_once_and_warning :
    (∀ (oracle : Nat → Outcome) (text image : Option String) (fuel rc : Nat),
      truthyStr image = true →
      ((attemptGeneration oracle text image fuel rc).sent.filter
        (fun ps => !hasInline ps)).length ≤ 1) ∧
    (∀ (s : String) (image : Option String), s ≠ "" →
      buildParts (some s) image false = [Part.text s] ∧
      hasInline (buildParts (some s) image false) = false) ∧
    (∀ (oracle : Nat → Outcome) (text image : Option String) (fuel rc : Nat)
       (e : ProviderError) (v : Json),
      routeAttemptStep oracle rc = .error e → ¬(rc < 3 ∧ routeIsRetryable e = true) →
      truthyStr image = true → truthyStr text = true → 1 ≤ rc →
      routeAttemptStep oracle (rc + 1) = .ok v →
      (attemptGeneration oracle text image (fuel + 1) rc).result = .success (setWarning v) ∧
      jsonGetField (setWarning v) "warning" = some (.str degradedWarning) ∧
      (attemptGeneration oracle text image (fuel + 1) rc).sent =
        [buildParts text image true, buildParts text image false]) := by
  refine ⟨?_, ?_, ?_⟩
  · intro oracle text image fuel rc hi
    exact route_fallback_at_most_once oracle text image hi fuel rc
  · intro s image hs
    exact ⟨buildParts_textOnly s image hs, hasInline_buildParts_textOnly (some s) image⟩
  · intro oracle text image fuel rc e v h hc hi ht hrc hf
    have hrun := route_step_fallback_ok oracle text image fuel rc e v h hc hi ht hrc hf
    refine ⟨?_, jsonGetField_setWarning v, ?_⟩ <;> simp [hrun]

/-- C7 witness: attempt 0 fails with 429 (retried), attempt 1 fails with a
non-retryable 400, the text-only fallback succeeds: the result carries the
degraded-mode warning and exactly one image-free payload was sent. -/
theorem c7_fallback_once_and_warning_witness :
    (truthyStr (some "img") = true ∧
     ((attemptGeneration
         (fun n => if n = 0 then Outcome.err ⟨some 429, "quota", none⟩
           else if n = 1 then Outcome.err ⟨some 400, "Bad Request", none⟩
           else Outcome.ok (some "\x7b\x7d"))
         (some "t") (some "img") 4 0).sent.filter
        (fun ps => !hasInline ps)).length ≤ 1) ∧
    buildParts (some "t") (some "img") false = [Part.text "t"] ∧
    ((attemptGeneration
        (fun n => if n = 0 then Outcome.err ⟨some 429, "quota", none⟩
          else if n = 1 then Outcome.err ⟨some 400, "Bad Request", none⟩
          else Outcome.ok (some "\x7b\x7d"))
        (some "t") (some "img") 3 1).result
      = .success (setWarning (Json.obj [])) ∧
     jsonGetField (setWarning (Json.obj [])) "warning" = some (.str degradedWarning)) :=
  ⟨⟨rfl,
    c7_fallback_once_and_warning.1
      (fun n => if n = 0 then Outcome.err ⟨some 429, "quota", none⟩
        else if n = 1 then Outcome.err ⟨some 400, "Bad Request", none⟩
        else Outcome.ok (some "\x7b\x7d"))
      (some "t") (some "img") 4 0 rfl⟩,
   (c7_fallback_once_and_warning.2.1 "t" (some "img") (by decide)).1,
   ⟨(c7_fallback_once_and_warning.2.2
      (fun n => if n = 0 then Outcome.err ⟨some 429, "quota", none⟩
        else if n = 1 then Outcome.err ⟨some 400, "Bad Request", none⟩
        else Outcome.ok (some "\x7b\x7d"))
      (some "t") (some "img") 2 1 ⟨some 400, "Bad Request", none⟩ (Json.obj [])
      rfl (by decide) rfl rfl (by decide) rfl).1,
    (c7_fallback_once_and_warning.2.2
      (fun n => if n = 0 then Outcome.err ⟨some 429, "quota", none⟩
        else if n = 1 then Outcome.err ⟨some 400, "Bad Request", none⟩
        else Outcome.ok (some "\x7b\x7d"))
      (some "t") (some "img") 2 1 ⟨some 400, "Bad Request", none⟩ (Json.obj [])
      rfl (by decide) rfl rfl (by decide) rfl).2.1⟩⟩

/-- C8 counterexample: in the SPA a malformed (non-JSON) response body is
not retried at all — one invocation, no backoff wait, immediate terminal
failure — contradicting the claim that it consumes a retry attempt and is
retried the same way a transient provider error is. -/
theorem c8_counterexample_malformed_not_retried :
    analyzeCreative (some "k") (fun _ => .ok (some "nope")) "t" none
      = ⟨.failure ("Falha na análise após 1 tentativas. " ++ spaParseErrorMsg), 1, []⟩ :=
  rfl

/-- C8 amended: a malformed-JSON failure is indeed caught at the same
catch level as network/provider errors (it flows through exactly the same
classification), but the classifier marks it non-retryable — no status, no
quota text — so it terminates the call immediately without consuming any
retry or backoff wait. -/
theorem c8_malformed_same_catch_terminal :
    (∀ (oracle : Nat → Outcome) (t : String),
      oracle 0 = .ok (some t) → t ≠ "" → jsonParse t = none →
      spaAttemptStep oracle 0 = .error spaParseError) ∧
    spaIsRetryable spaParseError = false ∧
    routeIsRetryable jsonSyntaxError = false ∧
    (∀ (oracle : Nat → Outcome) (key : Option String) (input : String)
       (img : Option String) (t : String),
      truthyStr key = true → oracle 0 = .ok (some t) → t ≠ "" → jsonParse t = none →
      (analyzeCreative key oracle input img).invocations = 1 ∧
      (analyzeCreative key oracle input img).delays = []) := by
  refine ⟨?_, rfl, rfl, ?_⟩
  · intro oracle t h0 ht hpar
    simp [spaAttemptStep, h0, ht, hpar]
  · intro oracle key input img t hkey h0 ht hpar
    have hstep : spaAttemptStep oracle 0 = .error spaParseError := by
      simp [spaAttemptStep, h0, ht, hpar]
    have hnr : spaIsRetryable spaParseError = false := rfl
    have h4 : analyzeCreative key oracle input img = analyzeCreativeLoop oracle 4 0 := by
      simp [analyzeCreative, hkey, spaMaxRetries]
    have hrun := h4.trans (spa_step_terminal oracle 3 0 spaParseError (by decide) hstep (Or.inl hnr))
    simp [hrun]

/-- C8 witness: the body `nope` is malformed; the SPA stops after one
invocation with no waits. -/
theorem c8_malformed_same_catch_terminal_witness :
    (jsonParse "nope" = none ∧
     spaAttemptStep (fun _ => .ok (some "nope")) 0 = .error spaParseError) ∧
    ((analyzeCreative (some "k") (fun _ => .ok (some "nope")) "t" none).invocations = 1 ∧
     (analyzeCreative (some "k") (fun _ => .ok (some "nope")) "t" none).delays = []) :=
  ⟨⟨rfl,
    c8_malformed_same_catch_terminal.1 (fun _ => .ok (some "nope")) "nope"
      rfl (by decide) rfl⟩,
   c8_malformed_same_catch_terminal.2.2.2 (fun _ => .ok (some "nope")) (some "k") "t" none
     "nope" rfl rfl (by decide) rfl⟩

/-- C9: a submission whose `text` and `image` are each absent or the empty
string fails zod validation, the route answers 400 with the invalid-input
error, and no provider invocation is attempted. -/
theorem c9_empty_input_no_network (body : Json) (apiKey : Option String) (oracle : Nat → Outcome)
    (htext : jsonGetField body "text" = none ∨ jsonGetField body "text" = some (.str ""))
    (himg : jsonGetField body "image" = none ∨ jsonGetField body "image" = some (.str "")) :
    analyzeSchemaSafeParse body = none ∧
    POST apiKey oracle body = ⟨400, none, some "Input inválido", 0, []⟩ := by
  have hval : analyzeSchemaSafeParse body = none := by
    cases body with
    | obj fs =>
      rcases htext with h1 | h1 <;> rcases himg with h2 | h2 <;>
        simp [analyzeSchemaSafeParse, h1, h2, zodOptionalString, truthyStr]
    | null => rfl
    | bool b => rfl
    | num r => rfl
    | str s => rfl
    | arr xs => rfl
  exact ⟨hval, by simp [POST, hval]⟩

/-- C9 witness: the empty JSON object and the empty-strings body. -/
theorem c9_empty_input_no_network_witness :
    (jsonGetField (Json.obj [("text", .str ""), ("image", .str "")]) "text" = some (.str "") ∧
     jsonGetField (Json.obj [("text", .str ""), ("image", .str "")]) "image" = some (.str "")) ∧
    analyzeSchemaSafeParse (Json.obj [("text", .str ""), ("image", .str "")]) = none ∧
    POST (some "k") (fun _ => .ok none) (Json.obj [("text", .str ""), ("image", .str "")]) =
      ⟨400, none, some "Input inválido", 0, []⟩ :=
  ⟨⟨rfl, rfl⟩,
    c9_empty_input_no_network (Json.obj [("text", .str ""), ("image", .str "")])
      (some "k") (fun _ => .ok none) (Or.inr rfl) (Or.inr rfl)⟩

/-- C10: with the provider API key absent from configuration, the SPA
service throws the fixed `API Key configuration error` before any provider
invocation, and for every body that passes validation the API route answers
HTTP 500 with the server-side configuration message before any provider
invocation; in both cases zero invocations and zero retries are consumed. -/
theorem c10_missing_api_key :
    (∀ (oracle : Nat → Outcome) (input : String) (img : Option String) (key : Option String),
      truthyStr key = false →
      analyzeCreative key oracle input img = ⟨.failure "API Key configuration error", 0, []⟩) ∧
    (∀ (oracle : Nat → Outcome) (body : Json) (t i : Option String),
      analyzeSchemaSafeParse body = some (t, i) →
      POST none oracle body = ⟨500, none, some routeNoKeyMsg, 0, []⟩) := by
  constructor
  · intro oracle input img key hkey
    simp [analyzeCreative, hkey]
  · intro oracle body t i hval
    simp [POST, hval, truthyStr]

/-- C10 witness: missing key on a concrete request. -/
theorem c10_missing_api_key_witness :
    (truthyStr (none : Option String) = false ∧
     analyzeCreative none (fun _ => .ok none) "hello" none =
       ⟨.failure "API Key configuration error", 0, []⟩) ∧
    (analyzeSchemaSafeParse (Json.obj [("text", .str "hi")]) = some (some "hi", none) ∧
     POST none (fun _ => .ok none) (Json.obj [("text", .str "hi")]) =
       ⟨500, none, some routeNoKeyMsg, 0, []⟩) :=
  ⟨⟨rfl, c10_missing_api_key.1 (fun _ => .ok none) "hello" none none rfl⟩,
   ⟨rfl, c10_missing_api_key.2 (fun _ => .ok none) (Json.obj [("text", .str "hi")])
      (some "hi") none rfl⟩⟩

end Acelerai
